import Mathlib

/-!
# Verification of the smart-home database tool's query gateway

Shallow embedding of `src/smart_home_db_tool.py` (class `SmartHomeDatabaseTool`),
restricted to the query validation and execution gateway:
`validate_sql` (lines 235-294), `_extract_table_names` (296-309),
`_get_existing_tables` (311-314) and `execute_query` (316-371).

The Python code relies on two external libraries that the embedding models:

* **sqlparse** (tokenizer).  `sqlparse.parse` lexes the input with `SQL_REGEX`;
  every lexeme receives a concrete token type (`tokens.Error` is the fallback
  rule), so a simple (non-grouped) token never has `ttype is None`; `ttype` is
  `None` exactly for `TokenList` groups built by the grouping pass.
  `TokenList.flatten()` yields only the simple (lexer) tokens, never groups.
  `sqlparse.parse("")` yields zero statements; for any non-empty input the
  lexer emits at least one token and the splitter at least one statement.
  `KEYWORDS_COMMON` types SELECT, INSERT, DELETE, UPDATE, UPSERT, REPLACE and
  MERGE as `Keyword.DML`, and DROP, CREATE, ALTER as `Keyword.DDL`.
* **sqlite3** (engine).  Modelled as an opaque record of functions
  (catalog listing, `EXPLAIN QUERY PLAN` probe, query execution); a missing
  connection (`self.cursor is None`) raises `AttributeError`, which is *not*
  an `sqlite3.Error`.

Machine-level details not modelled: wall-clock `execution_time` (the dict key
exists in the Python result but its value is real time) and the textual
contents of query plans (opaque, display-only).
-/

namespace SmartHomeDB

/-- Token types of the sqlparse lexer, as far as the tool observes them.
`validate_sql` only ever tests a token type for being `Keyword.DML`,
`Whitespace`/`Comment` (skipped by `token_first`) or `None` (groups); the
remaining constructors exist so that every lexeme gets a concrete type, as in
sqlparse, where `tokens.Error` is the catch-all lexer rule. -/
inductive TType where
  | dml          -- tokens.Keyword.DML
  | ddl          -- tokens.Keyword.DDL
  | keyword      -- tokens.Keyword (non-DML, non-DDL)
  | name         -- tokens.Name
  | whitespace   -- tokens.Whitespace / tokens.Newline
  | comment      -- tokens.Comment.Single / tokens.Comment.Multiline
  | number       -- tokens.Number
  | strLit       -- tokens.Literal.String
  | wildcard     -- tokens.Wildcard
  | punctuation  -- tokens.Punctuation / operators / tokens.Error
deriving DecidableEq, Repr

/-- Keywords typed `tokens.Keyword.DML` by sqlparse's `KEYWORDS_COMMON`.
Note this is strictly larger than the four kinds the spec names. -/
def dmlKeywords : List String :=
  ["SELECT", "INSERT", "DELETE", "UPDATE", "UPSERT", "REPLACE", "MERGE"]

/-- Keywords typed `tokens.Keyword.DDL` by sqlparse's `KEYWORDS_COMMON`. -/
def ddlKeywords : List String := ["DROP", "CREATE", "ALTER"]

/-- A few of the many plain keywords of sqlparse's keyword tables.  Only the
DML/DDL distinction is ever observable to `validate_sql`, so this list being
partial is harmless: a word classified `keyword` instead of `name` (or the
other way around) changes no observable of the gateway. -/
def plainKeywords : List String :=
  ["FROM", "WHERE", "INTO", "VALUES", "TABLE", "AND", "OR", "NOT", "NULL",
   "ORDER", "BY", "GROUP", "LIMIT", "SET", "JOIN", "ON", "AS", "IF", "EXISTS"]

/-- Python `str.upper()` restricted to ASCII, re-implemented structurally
(core `String.toUpper` goes through `String.map`, which is defined by
well-founded recursion and cannot be evaluated by the kernel). -/
def upper (s : String) : String := String.mk (s.data.map Char.toUpper)

/-- Python `str.lower()` restricted to ASCII; see `upper`. -/
def lower (s : String) : String := String.mk (s.data.map Char.toLower)

/-- sqlparse keyword lookup: the word is upper-cased and looked up in the
keyword tables; unknown words become `tokens.Name`. -/
def classifyWord (w : String) : TType :=
  let u := upper w
  if u ∈ dmlKeywords then TType.dml
  else if u ∈ ddlKeywords then TType.ddl
  else if u ∈ plainKeywords then TType.keyword
  else TType.name

/-- A token as the tool observes it: Python's `token.ttype` (an `Option`
because sqlparse's `TokenList` groups have `ttype is None`) and
`token.value`.  The model's parser performs no grouping, so every token it
builds is a simple lexer token with `ttype? = some _`; this is faithful to
the source because (a) `TokenList.flatten()` never yields a group, and the
lexer assigns every simple token a concrete type, and (b) `token_first`
returns a group only for statements that do not start with a DML keyword
token, and a group's `ttype` (`None`) fails the `Keyword.DML` test exactly
like the leading simple token's type does in the ungrouped stream. -/
structure SqlTok where
  ttype? : Option TType
  value : String
deriving DecidableEq, Repr

/-- Characters that may continue a word token (sqlparse lexes words with
`\w[$#\w]*`). -/
def isWordChar (c : Char) : Bool :=
  c.isAlpha || c.isDigit || c = '_' || c = '$' || c = '#'

/-- Consume a `/* ... */` block comment body: returns the characters up to
and including the closing `*/` (or the whole rest if unterminated), and the
remainder.  Fuel-driven so that the kernel can evaluate it. -/
def takeBlockComment : Nat → List Char → List Char × List Char
  | 0, l => (l, [])
  | _, [] => ([], [])
  | fuel + 1, c :: cs =>
    if c = '*' ∧ cs.head? = some '/' then ([c, '/'], cs.tail)
    else
      let (a, r) := takeBlockComment fuel cs
      (c :: a, r)

/-- The sqlparse lexer, modelled: splits the character stream into typed
tokens.  Covered lexeme classes: whitespace runs, `--` line comments,
`/* */` block comments, quoted literals, word tokens (classified by the
keyword tables), digit runs, the `*` wildcard; every other character is a
one-character punctuation/operator token (sqlparse assigns those finer types,
none of which is `Keyword.DML`, `Whitespace` or `Comment`, so the coarse
class is observationally equivalent).  `fuel` is an upper bound on the number
of tokens; each step consumes at least one character, so
`fuel = length + 1` always suffices. -/
def lexChars : Nat → List Char → List SqlTok
  | 0, _ => []
  | _ + 1, [] => []
  | fuel + 1, c :: cs =>
    if c.isWhitespace then
      ⟨some TType.whitespace, String.mk (c :: cs.takeWhile Char.isWhitespace)⟩
        :: lexChars fuel (cs.dropWhile Char.isWhitespace)
    else if c = '-' ∧ cs.head? = some '-' then
      ⟨some TType.comment, String.mk ((c :: cs).takeWhile (fun ch => ch ≠ '\n'))⟩
        :: lexChars fuel ((c :: cs).dropWhile (fun ch => ch ≠ '\n'))
    else if c = '/' ∧ cs.head? = some '*' then
      let (body, rest) := takeBlockComment fuel cs.tail
      ⟨some TType.comment, String.mk (c :: '*' :: body)⟩ :: lexChars fuel rest
    else if c = '\'' ∨ c = '"' then
      let body := cs.takeWhile (fun ch => ch ≠ c)
      let rest := cs.dropWhile (fun ch => ch ≠ c)
      ⟨some TType.strLit, String.mk (c :: body ++ rest.take 1)⟩
        :: lexChars fuel (rest.drop 1)
    else if isWordChar c then
      let w := String.mk (c :: cs.takeWhile isWordChar)
      let ty := if (c :: cs.takeWhile isWordChar).all Char.isDigit
                then TType.number else classifyWord w
      ⟨some ty, w⟩ :: lexChars fuel (cs.dropWhile isWordChar)
    else if c = '*' then
      ⟨some TType.wildcard, "*"⟩ :: lexChars fuel cs
    else
      ⟨some TType.punctuation, String.mk [c]⟩ :: lexChars fuel cs

/-- A parsed statement: its token stream.  The model keeps the lexer's flat
stream (see `SqlTok` for why omitting the grouping pass is faithful). -/
structure SqlStatement where
  toks : List SqlTok
deriving DecidableEq, Repr

/-- `TokenList.flatten()`: on the model's ungrouped statements this is the
token stream itself (real sqlparse inlines groups back into the very same
lexer-token stream, so the output is identical). -/
def SqlStatement.flatten (s : SqlStatement) : List SqlTok := s.toks

/-- `statement.token_first(skip_ws=True, skip_cm=True)`: the first token that
is neither whitespace nor a comment, if any. -/
def SqlStatement.token_first (s : SqlStatement) : Option SqlTok :=
  s.toks.find? (fun t =>
    !(t.ttype? = some TType.whitespace ∨ t.ttype? = some TType.comment : Bool))

/-- `sqlparse.parse`: zero statements exactly for the empty input; otherwise
the lexed token stream.  The splitter's cut at `;` is not modelled because it
is unobservable here: the first meaningful token of the first statement is
the first meaningful token of the whole stream (the first statement extends
through the first `;`, itself a meaningful token), and table extraction scans
the flattened tokens of *all* statements, i.e. the whole stream. -/
def sqlparse_parse (s : String) : List SqlStatement :=
  if s.data.isEmpty then []
  else [⟨lexChars (s.data.length + 1) s.data⟩]

/-- Lines 248-257 of `validate_sql`: the statement type, i.e. the upper-cased
value of the first meaningful token of the first statement when that token's
type is `Keyword.DML`; `none` when there is no statement, no meaningful
token, or its type is not `Keyword.DML` (the branch returning the
"无法识别SQL语句类型" envelope). -/
def statement_kind_of (sql_query : String) : Option String :=
  match sqlparse_parse sql_query with
  | [] => none
  | stmt :: _ =>
    match stmt.token_first with
    | some first_token =>
      if first_token.ttype? = some TType.dml
      then some (upper first_token.value)
      else none
    | none => none

/-- A dynamically typed sqlite value, as fetched into a result row. -/
inductive SqlVal where
  | intV (n : Int)
  | realV (num den : Int)
  | textV (s : String)
  | nullV
deriving DecidableEq, Repr

/-- The sqlite engine behind the open connection, modelled as an opaque
record of functions of the SQL text:

* `masterTables` — the catalog rows fetched by
  `SELECT name FROM sqlite_master WHERE type = table-kind` (line 313);
* `explain q` — `cursor.execute` on `EXPLAIN QUERY PLAN {q}` followed by
  `fetchall()`: the plan rows, or the `sqlite3.Error` message;
* `runSelect q` — `cursor.execute(q)`, `fetchall()` and
  `cursor.description`: the column names and the rows, or the error message;
* `runDml q` — `cursor.execute(q)`, `conn.commit()` and `cursor.rowcount`:
  the affected-row count, or the error message. -/
structure Engine where
  masterTables : List String
  explain : String → Except String (List String)
  runSelect : String → Except String (List String × List (List SqlVal))
  runDml : String → Except String Nat

/-- One operation sent to the shared cursor; recorded so that "no execution
was attempted" is a provable statement about the call trace. -/
inductive CursorOp where
  | catalogQuery              -- the sqlite_master catalog listing (line 313)
  | explainProbe (q : String) -- EXPLAIN QUERY PLAN {q} (lines 274, 328)
  | runQuery (q : String)     -- cursor.execute(q) (lines 332, 352)
deriving DecidableEq, Repr

/-- The tool's mutable fields relevant to the gateway: `self.conn` /
`self.cursor` (both `None` until a connection is opened, modelled as one
`Option`) plus the trace of cursor operations issued so far. -/
structure ToolState where
  conn? : Option Engine
  cursorLog : List CursorOp

/-- The uniform result/error dictionary returned by `validate_sql` and
`execute_query`.  Each Python `return {...}` literal populates a subset of
these keys; absent keys are `none`.  The `execution_time` key of the success
envelopes is wall-clock time and is not modelled. -/
structure Envelope where
  valid : Bool
  error : Option String := none
  suggestion : Option String := none
  message : Option String := none
  statement_type : Option String := none
  tables : Option (List String) := none
  results : Option (List (List SqlVal)) := none
  columns : Option (List String) := none
  row_count : Option Nat := none
  affected_rows : Option Nat := none
  query_plan : Option (List String) := none
deriving DecidableEq, Repr

/-- `_extract_table_names` (lines 296-309): scan the flattened tokens of
every parsed statement; collect the lower-cased value of each token whose
`ttype is None` and whose parent is the statement, when that value is in the
fixed candidate list `tables`; finally `list(set(...))` (modelled as
`dedup`; the collector provably collects nothing, so the set order is moot).
The parent test `isinstance(token.parent, sql.Statement)` is modelled as
always true: in the ungrouped model every flattened token's parent is the
statement, and making the conjunct true only widens what may be collected. -/
def _extract_table_names (sql_query : String) : List String :=
  let parsed := sqlparse_parse sql_query
  let table_names := parsed.flatMap (fun statement =>
    statement.flatten.filterMap (fun token =>
      if token.ttype? = none then
        let tables := ["users", "devices", "usage_logs", "security_events",
                       "user_feedback", "rooms"]
        if lower token.value ∈ tables then some (lower token.value) else none
      else none))
  table_names.dedup

/-- Line 263: `set(table_names) - set(existing_tables)`, kept as the list of
extracted names missing from the catalog (order is irrelevant: the code only
tests emptiness and joins the names into a message, and the list is provably
empty anyway). -/
def invalid_tables_of (sql_query : String) (existing_tables : List String) :
    List String :=
  (_extract_table_names sql_query).filter (fun t => t ∉ existing_tables)

/-- `_get_existing_tables` (lines 311-314): list the catalog.  With no open
connection `self.cursor` is `None` and the attribute access raises
`AttributeError` (the Python message, quotes omitted:
NoneType object has no attribute execute). -/
def _get_existing_tables (st : ToolState) :
    Except String (List String × ToolState) :=
  match st.conn? with
  | none => Except.error "AttributeError: NoneType object has no attribute execute"
  | some engine =>
      Except.ok (engine.masterTables,
        { st with cursorLog := st.cursorLog ++ [CursorOp.catalogQuery] })

/-- The Schema Registry's `known_tables()` (spec §6): pass-through to the
catalog listing; empty when no connection is open (the real call would
raise — only used here to phrase claims, never by the embedded code). -/
def known_tables (st : ToolState) : List String :=
  match st.conn? with
  | none => []
  | some engine => engine.masterTables

/-- `validate_sql` (lines 235-294).  Control flow, in source order:
parse; empty parse ⇒ the empty/unparseable envelope; first meaningful token
not `Keyword.DML` ⇒ the unrecognized-type envelope (the classification is
`statement_kind_of`); extract table names; list the catalog (raises without
a connection — caught by the outer `except Exception` ⇒ the catch-all
envelope); non-empty set difference ⇒ the unknown-table envelope; for
SELECT, the `EXPLAIN QUERY PLAN` probe (an `sqlite3.Error` ⇒ the
syntax-error envelope; with `cursor = None` the raised `AttributeError`
reaches the outer handler, an unreachable case kept for faithfulness);
otherwise the success envelope. -/
def validate_sql (st : ToolState) (sql_query : String) :
    Envelope × ToolState :=
  match sqlparse_parse sql_query with
  | [] =>
      ({ valid := false,
         error := some "SQL语句为空或无法解析",
         suggestion := some "请输入有效的SQL查询语句" }, st)
  | _stmt :: _ =>
    match statement_kind_of sql_query with
    | none =>
        ({ valid := false,
           error := some "无法识别SQL语句类型",
           suggestion := some "请确保使用SELECT、INSERT、UPDATE或DELETE语句" }, st)
    | some statement_type =>
      let table_names := _extract_table_names sql_query
      match _get_existing_tables st with
      | Except.error e =>
          ({ valid := false,
             error := some ("SQL验证失败: " ++ e),
             suggestion := some "请检查SQL语句格式是否正确" }, st)
      | Except.ok (existing_tables, st1) =>
        let invalid_tables := invalid_tables_of sql_query existing_tables
        if invalid_tables ≠ [] then
          ({ valid := false,
             error := some ("表名不存在: " ++ String.intercalate ", " invalid_tables),
             suggestion := some ("可用的表包括: " ++ String.intercalate ", " existing_tables) }, st1)
        else if statement_type = "SELECT" then
          match st1.conn? with
          | none =>
              ({ valid := false,
                 error := some ("SQL验证失败: "
                   ++ "AttributeError: NoneType object has no attribute execute"),
                 suggestion := some "请检查SQL语句格式是否正确" }, st1)
          | some engine =>
            let st2 := { st1 with
              cursorLog := st1.cursorLog ++ [CursorOp.explainProbe sql_query] }
            match engine.explain ("EXPLAIN QUERY PLAN " ++ sql_query) with
            | Except.error e =>
                ({ valid := false,
                   error := some ("SQL语法错误: " ++ e),
                   suggestion := some "请检查列名、表名和SQL语法是否正确" }, st2)
            | Except.ok _ =>
                ({ valid := true,
                   message := some "SQL语句语法正确",
                   statement_type := some statement_type,
                   tables := some table_names }, st2)
        else
          ({ valid := true,
             message := some "SQL语句语法正确",
             statement_type := some statement_type,
             tables := some table_names }, st1)

/-- `execute_query` (lines 316-371).  Validate first; an invalid outcome is
returned unchanged.  Otherwise dispatch on the statement type recorded by
validation: SELECT re-runs the plan probe, executes, and reports rows,
columns, `row_count = len(results)` and the plan; any other type executes,
commits, and reports `affected_rows`.  `sqlite3.Error` at any engine step
yields the execution-failure envelope.  The function's own `try` catches
only `sqlite3.Error`, so a `None` cursor or a missing `statement_type` key
would propagate out of the Python function: those (unreachable) cases are
the `Except.error` results. -/
def execute_query (st : ToolState) (sql_query : String) :
    Except String (Envelope × ToolState) :=
  let validation_result := (validate_sql st sql_query).1
  let st1 := (validate_sql st sql_query).2
  if validation_result.valid = false then Except.ok (validation_result, st1)
  else
    match st1.conn? with
    | none => Except.error "AttributeError: NoneType object has no attribute execute"
    | some engine =>
      match validation_result.statement_type with
      | none => Except.error "KeyError: statement_type"
      | some statement_type =>
        if statement_type = "SELECT" then
          let st2 := { st1 with
            cursorLog := st1.cursorLog ++ [CursorOp.explainProbe sql_query] }
          match engine.explain ("EXPLAIN QUERY PLAN " ++ sql_query) with
          | Except.error e =>
              Except.ok ({ valid := false,
                           error := some ("查询执行失败: " ++ e),
                           suggestion := some "请检查SQL语句是否正确" }, st2)
          | Except.ok query_plan =>
            let st3 := { st2 with
              cursorLog := st2.cursorLog ++ [CursorOp.runQuery sql_query] }
            match engine.runSelect sql_query with
            | Except.error e =>
                Except.ok ({ valid := false,
                             error := some ("查询执行失败: " ++ e),
                             suggestion := some "请检查SQL语句是否正确" }, st3)
            | Except.ok (column_names, results) =>
                Except.ok ({ valid := true,
                             statement_type := some "SELECT",
                             results := some results,
                             columns := some column_names,
                             row_count := some results.length,
                             query_plan := some query_plan }, st3)
        else
          let st2 := { st1 with
            cursorLog := st1.cursorLog ++ [CursorOp.runQuery sql_query] }
          match engine.runDml sql_query with
          | Except.error e =>
              Except.ok ({ valid := false,
                           error := some ("查询执行失败: " ++ e),
                           suggestion := some "请检查SQL语句是否正确" }, st2)
          | Except.ok n =>
              Except.ok ({ valid := true,
                           statement_type := some statement_type,
                           affected_rows := some n,
                           message := some (statement_type ++ " 语句执行成功") }, st2)

/-- The six tables created by `initialize_database` (lines 33-140), i.e. the
catalog contents of a seeded database. -/
def seededTables : List String :=
  ["users", "devices", "usage_logs", "security_events", "user_feedback", "rooms"]

/-- A concrete engine over the seeded database, behaving as sqlite does on
the scenario queries used below: plans exist for SELECTs over existing
tables, the probe fails with "no such table" for the ghost table, and the
seeded users table has two of its rows exposed. -/
def demoEngine : Engine where
  masterTables := seededTables
  explain := fun q =>
    if q = "EXPLAIN QUERY PLAN SELECT * FROM ghosts" then
      Except.error "no such table: ghosts"
    else Except.ok ["SCAN TABLE"]
  runSelect := fun q =>
    if q = "SELECT * FROM users" then
      Except.ok (["user_id", "username"],
        [[SqlVal.intV 1, SqlVal.textV "zhangsan"],
         [SqlVal.intV 2, SqlVal.textV "lisi"]])
    else Except.error "no such table"
  runDml := fun _ => Except.ok 0

/-- Tool state with an open connection to the seeded database. -/
def demoState : ToolState := { conn? := some demoEngine, cursorLog := [] }

/-- Tool state before any connection is opened (`self.conn = None`,
`self.cursor = None`, lines 30-31). -/
def noConnState : ToolState := { conn? := none, cursorLog := [] }

/-- Claim C1 as the spec states it (§3 invariant): `valid=true` iff the
outcome's statement kind is one of the four DML kinds and every referenced
table is a member of the Schema Registry's `known_tables()`. -/
def c1_claim (st : ToolState) (q : String) : Prop :=
  (validate_sql st q).1.valid = true ↔
    ((∃ k ∈ ["SELECT", "INSERT", "UPDATE", "DELETE"],
        (validate_sql st q).1.statement_type = some k) ∧
     ∀ t ∈ _extract_table_names q, t ∈ known_tables st)

/-! ## Helper lemmas -/

/-- Every token the lexer emits carries a concrete token type (in sqlparse,
`ttype is None` holds only for `TokenList` groups, which the lexer never
produces and `flatten()` never yields). -/
theorem lexChars_ttype_isSome (fuel : Nat) (cs : List Char) :
    ∀ t ∈ lexChars fuel cs, t.ttype? ≠ none := by
  induction fuel generalizing cs with
  | zero => simp [lexChars]
  | succ n ih =>
    match cs with
    | [] => simp [lexChars]
    | c :: cs' =>
      rw [lexChars]
      split
      · intro t ht
        rcases List.mem_cons.mp ht with h | h
        · subst h; simp
        · exact ih _ t h
      · split
        · intro t ht
          rcases List.mem_cons.mp ht with h | h
          · subst h; simp
          · exact ih _ t h
        · split
          · intro t ht
            rcases List.mem_cons.mp ht with h | h
            · subst h; simp
            · exact ih _ t h
          · split
            · intro t ht
              rcases List.mem_cons.mp ht with h | h
              · subst h; simp
              · exact ih _ t h
            · split
              · intro t ht
                rcases List.mem_cons.mp ht with h | h
                · subst h; simp
                · exact ih _ t h
              · split
                · intro t ht
                  rcases List.mem_cons.mp ht with h | h
                  · subst h; simp
                  · exact ih _ t h
                · intro t ht
                  rcases List.mem_cons.mp ht with h | h
                  · subst h; simp
                  · exact ih _ t h

/-- The table-name collector of `_extract_table_names` collects nothing:
it only accepts tokens with `ttype is None`, but every flattened token has a
concrete type.  This makes the whole extraction, and with it the
unknown-table check of `validate_sql`, inoperative. -/
theorem extract_table_names_eq_nil (sql_query : String) :
    _extract_table_names sql_query = [] := by
  unfold _extract_table_names
  rw [sqlparse_parse]
  split
  · simp
  · simp only [List.flatMap_cons, List.flatMap_nil, List.append_nil]
    rw [List.dedup_eq_nil, List.filterMap_eq_nil_iff]
    intro t ht
    have := lexChars_ttype_isSome _ _ t ht
    simp [this]

/-- Line 263's set difference is always empty. -/
theorem invalid_tables_of_eq_nil (sql_query : String) (existing : List String) :
    invalid_tables_of sql_query existing = [] := by
  rw [invalid_tables_of, extract_table_names_eq_nil]
  rfl

/-- Catalog listing on an open connection. -/
theorem get_existing_tables_ok (st : ToolState) (eng : Engine)
    (h : st.conn? = some eng) :
    _get_existing_tables st =
      Except.ok (eng.masterTables,
        { st with cursorLog := st.cursorLog ++ [CursorOp.catalogQuery] }) := by
  rw [_get_existing_tables, h]

/-- Catalog listing without a connection raises. -/
theorem get_existing_tables_err (st : ToolState) (h : st.conn? = none) :
    _get_existing_tables st =
      Except.error "AttributeError: NoneType object has no attribute execute" := by
  rw [_get_existing_tables, h]

/-- `validate_sql` never populates any execution-result field: every envelope
it can return sets none of `results`, `columns`, `row_count`,
`affected_rows` (and also no `query_plan`). -/
theorem validate_result_fields_none (st : ToolState) (q : String) :
    (validate_sql st q).1.results = none ∧
    (validate_sql st q).1.columns = none ∧
    (validate_sql st q).1.row_count = none ∧
    (validate_sql st q).1.affected_rows = none ∧
    (validate_sql st q).1.query_plan = none := by
  simp only [validate_sql]
  (repeat' split) <;> exact ⟨rfl, rfl, rfl, rfl, rfl⟩

/-- `validate_sql` only reads and never replaces the connection. -/
theorem validate_conn_eq (st : ToolState) (q : String) :
    (validate_sql st q).2.conn? = st.conn? := by
  rcases hc : st.conn? with _ | eng
  · cases hp : sqlparse_parse q with
    | nil => simp [validate_sql, hp, hc]
    | cons stmt rest =>
      cases hk : statement_kind_of q with
      | none => simp [validate_sql, hp, hk, hc]
      | some k => simp [validate_sql, hp, hk, hc, get_existing_tables_err st hc]
  · cases hp : sqlparse_parse q with
    | nil => simp [validate_sql, hp, hc]
    | cons stmt rest =>
      cases hk : statement_kind_of q with
      | none => simp [validate_sql, hp, hk, hc]
      | some k =>
        simp only [validate_sql, hp, hk, get_existing_tables_ok st eng hc,
          invalid_tables_of_eq_nil, ne_eq, not_true_eq_false, if_false, hc]
        split
        · cases he : eng.explain ("EXPLAIN QUERY PLAN " ++ q) <;> simp [he, hc]
        · simp [hc]

/-- The validation outcome depends only on the connection (and the input):
the cursor bookkeeping never feeds back into the envelope. -/
theorem validate_env_conn_only (st st' : ToolState) (q : String)
    (h : st.conn? = st'.conn?) :
    (validate_sql st q).1 = (validate_sql st' q).1 := by
  rcases hc : st.conn? with _ | eng
  · have hc' : st'.conn? = none := by rw [← h, hc]
    cases hp : sqlparse_parse q with
    | nil => simp [validate_sql, hp]
    | cons stmt rest =>
      cases hk : statement_kind_of q with
      | none => simp [validate_sql, hp, hk]
      | some k =>
        simp [validate_sql, hp, hk, get_existing_tables_err st hc,
          get_existing_tables_err st' hc']
  · have hc' : st'.conn? = some eng := by rw [← h, hc]
    cases hp : sqlparse_parse q with
    | nil => simp [validate_sql, hp]
    | cons stmt rest =>
      cases hk : statement_kind_of q with
      | none => simp [validate_sql, hp, hk]
      | some k =>
        simp only [validate_sql, hp, hk, get_existing_tables_ok st eng hc,
          get_existing_tables_ok st' eng hc',
          invalid_tables_of_eq_nil, ne_eq, not_true_eq_false, if_false, hc, hc']
        split
        · cases he : eng.explain ("EXPLAIN QUERY PLAN " ++ q) <;> simp [he]
        · simp

/-- A string extended to the right cannot equal a string with a different
first character. -/
theorem append_ne_of_head_ne (p s t : String) (c : Char)
    (hp : p.data.head? = some c) (hne : t.data.head? ≠ some c) :
    p ++ s ≠ t := by
  intro he
  apply hne
  rw [← he]
  rw [String.data_append]
  cases hd : p.data with
  | nil => rw [hd] at hp; simp at hp
  | cons a as =>
    rw [hd] at hp
    simp only [List.head?] at hp ⊢
    simpa using hp

/-- A non-empty all-whitespace input lexes to a single whitespace token, so
it has no meaningful first token and no statement kind. -/
theorem statement_kind_of_all_ws (q : String) (hne : q.data ≠ [])
    (hws : ∀ c ∈ q.data, c.isWhitespace = true) :
    statement_kind_of q = none := by
  rcases hq : q.data with _ | ⟨c, cs⟩
  · exact absurd hq hne
  · have hc : c.isWhitespace = true := hws c (by rw [hq]; exact List.mem_cons_self c cs)
    have hcs : ∀ x ∈ cs, x.isWhitespace = true :=
      fun x hx => hws x (by rw [hq]; exact List.mem_cons_of_mem c hx)
    have hdrop : cs.dropWhile Char.isWhitespace = [] :=
      List.dropWhile_eq_nil_iff.mpr hcs
    rw [statement_kind_of, sqlparse_parse, hq]
    simp only [List.isEmpty_cons, Bool.false_eq_true, if_false]
    rw [List.length_cons, lexChars, if_pos hc, hdrop]
    have hrest : lexChars (cs.length + 1) [] = [] := by rw [lexChars]
    rw [hrest]
    simp [SqlStatement.token_first, List.find?]

/-- `sqlparse_parse` yields no statements exactly on the empty input. -/
theorem sqlparse_parse_eq_nil_iff (q : String) :
    sqlparse_parse q = [] ↔ q = "" := by
  rw [sqlparse_parse]
  cases hq : q.data with
  | nil =>
    have : q = "" := by
      cases q with
      | mk l => simp at hq; rw [hq]
    simp [this]
  | cons c cs =>
    have : q ≠ "" := by
      intro h
      rw [h] at hq
      simp at hq
    simp [hq, this]

/-! ## Claim theorems -/

/-- C2 (code bug): on `SELECT * FROM ghosts` the code does *not* produce the
unknown-table error with a suggestion listing the known tables; the lexical
collector never collects `ghosts` (its `ttype is None` test never fires, and
`ghosts` is not in the candidate vocabulary either), so the statement slips
past the table check and fails only at the `EXPLAIN` probe, with the
syntax-error envelope and the generic suggestion.  Worse, a non-SELECT
statement over an unknown table validates successfully, because only SELECT
is probed. -/
theorem c2_unknown_table_not_reported :
    (validate_sql demoState "SELECT * FROM ghosts").1 =
      { valid := false,
        error := some "SQL语法错误: no such table: ghosts",
        suggestion := some "请检查列名、表名和SQL语法是否正确" } ∧
    (validate_sql demoState "INSERT INTO ghosts VALUES (1)").1 =
      { valid := true, message := some "SQL语句语法正确",
        statement_type := some "INSERT", tables := some [] } :=
  ⟨rfl, rfl⟩

/-- C3 (code bug): `validate("SELECT * FROM users")` does return
`valid=true` with kind SELECT, but its `tables` field is the *empty* list,
not `{"users"}`: the extraction requires `token.ttype is None` on flattened
tokens, which is never true, so it collects nothing on any input. -/
theorem c3_extraction_collects_nothing :
    (validate_sql demoState "SELECT * FROM users").1 =
      { valid := true, message := some "SQL语句语法正确",
        statement_type := some "SELECT", tables := some [] } ∧
    ∀ q : String, _extract_table_names q = [] :=
  ⟨rfl, extract_table_names_eq_nil⟩

/-- C6 (confirmed): when validation fails, `execute_query` returns the
validation outcome unchanged (same envelope, same cursor trace — no further
engine call is attempted) and that envelope populates none of `results`,
`columns`, `row_count`, `affected_rows`. -/
theorem c6_invalid_passthrough (st : ToolState) (q : String)
    (h : (validate_sql st q).1.valid = false) :
    execute_query st q = Except.ok (validate_sql st q) ∧
    (validate_sql st q).1.results = none ∧
    (validate_sql st q).1.columns = none ∧
    (validate_sql st q).1.row_count = none ∧
    (validate_sql st q).1.affected_rows = none := by
  refine ⟨?_, (validate_result_fields_none st q).1,
    (validate_result_fields_none st q).2.1,
    (validate_result_fields_none st q).2.2.1,
    (validate_result_fields_none st q).2.2.2.1⟩
  simp [execute_query, h]

/-- Witness for C6 at `DROP TABLE users` (rejected as unrecognized). -/
theorem c6_invalid_passthrough_witness :
    (validate_sql demoState "DROP TABLE users").1.valid = false ∧
    (execute_query demoState "DROP TABLE users" =
      Except.ok (validate_sql demoState "DROP TABLE users") ∧
     (validate_sql demoState "DROP TABLE users").1.results = none ∧
     (validate_sql demoState "DROP TABLE users").1.columns = none ∧
     (validate_sql demoState "DROP TABLE users").1.row_count = none ∧
     (validate_sql demoState "DROP TABLE users").1.affected_rows = none) :=
  ⟨rfl, c6_invalid_passthrough demoState "DROP TABLE users" rfl⟩

/-- C7 (confirmed): validating the same input twice against an unchanged
schema yields the same outcome — the first call only appends to the cursor
trace and never changes the connection, and the outcome depends only on the
connection and the input. -/
theorem c7_validate_idempotent (st : ToolState) (q : String) :
    (validate_sql ((validate_sql st q).2) q).1 = (validate_sql st q).1 :=
  validate_env_conn_only _ st q (validate_conn_eq st q)

/-- C9 (confirmed): the identifier `user` (a strict substring of the table
name `users`) is never collected as a referenced table and never appears in
the computed set of unknown tables — trivially so, since the collector never
collects anything at all. -/
theorem c9_no_substring_false_positive (q : String) (existing : List String) :
    "user" ∉ _extract_table_names q ∧ "user" ∉ invalid_tables_of q existing := by
  rw [extract_table_names_eq_nil, invalid_tables_of_eq_nil]
  exact ⟨List.not_mem_nil _, List.not_mem_nil _⟩

/-- C10 (confirmed): with no open connection, `validate_sql` still returns a
structured envelope — `valid=false` with an error message — instead of
letting the `AttributeError` escape: the raised exception is converted by
the catch-all handler (and the parse-level rejections never touch the
cursor in the first place). -/
theorem c10_validate_total_without_connection (st : ToolState) (q : String)
    (h : st.conn? = none) :
    (validate_sql st q).1.valid = false ∧
    ((validate_sql st q).1.error).isSome = true := by
  cases hp : sqlparse_parse q with
  | nil => simp [validate_sql, hp]
  | cons stmt rest =>
    cases hk : statement_kind_of q with
    | none => simp [validate_sql, hp, hk]
    | some k => simp [validate_sql, hp, hk, get_existing_tables_err st h]

/-- Witness for C10 on the unconnected initial state. -/
theorem c10_validate_total_without_connection_witness :
    (validate_sql noConnState "SELECT * FROM users").1.valid = false ∧
    ((validate_sql noConnState "SELECT * FROM users").1.error).isSome = true :=
  c10_validate_total_without_connection noConnState "SELECT * FROM users" rfl

/-- C5 (counterexample): a whitespace-only input is *not* answered with the
empty-or-unparseable error — sqlparse turns it into one whitespace-only
statement, whose missing first meaningful token routes it to the
unrecognized-statement-type error instead. -/
theorem c5_claim_counterexample :
    (validate_sql demoState " ").1.error = some "无法识别SQL语句类型" ∧
    (validate_sql demoState " ").1.error ≠ some "SQL语句为空或无法解析" :=
  ⟨rfl, by decide⟩

/-- C5 (amended): only the empty input parses to zero statements and gets
the empty-or-unparseable envelope; a non-empty whitespace-only input parses
to one statement with no meaningful token and gets the
unrecognized-statement-type envelope. -/
theorem c5_amended_empty_vs_whitespace (st : ToolState) (q : String) :
    (q = "" →
      (validate_sql st q).1 =
        { valid := false, error := some "SQL语句为空或无法解析",
          suggestion := some "请输入有效的SQL查询语句" }) ∧
    (q ≠ "" → (∀ c ∈ q.data, c.isWhitespace = true) →
      (validate_sql st q).1 =
        { valid := false, error := some "无法识别SQL语句类型",
          suggestion := some "请确保使用SELECT、INSERT、UPDATE或DELETE语句" }) := by
  constructor
  · intro hq
    subst hq
    rfl
  · intro hq hws
    have hd : q.data ≠ [] := by
      intro h0
      apply hq
      cases q with
      | mk l => simp at h0; rw [h0]
    have hk := statement_kind_of_all_ws q hd hws
    rcases hpe : sqlparse_parse q with _ | ⟨stmt, rest⟩
    · exact absurd (sqlparse_parse_eq_nil_iff q |>.mp hpe) hq
    · simp [validate_sql, hpe, hk]

/-- Witness for C5 at the empty input and a tab-newline input. -/
theorem c5_amended_empty_vs_whitespace_witness :
    (validate_sql demoState "").1 =
      { valid := false, error := some "SQL语句为空或无法解析",
        suggestion := some "请输入有效的SQL查询语句" } ∧
    (validate_sql demoState "\t\n").1 =
      { valid := false, error := some "无法识别SQL语句类型",
        suggestion := some "请确保使用SELECT、INSERT、UPDATE或DELETE语句" } :=
  ⟨(c5_amended_empty_vs_whitespace demoState "").1 rfl,
   (c5_amended_empty_vs_whitespace demoState "\t\n").2 (by decide) (by decide)⟩

/-- C4 (counterexample): `REPLACE` is not one of the four recognized kinds,
yet `validate` does not reject a REPLACE statement — sqlparse types it
`Keyword.DML`, so the statement is classified kind `REPLACE` and validates
successfully (no probe runs for non-SELECT kinds). -/
theorem c4_claim_counterexample :
    statement_kind_of "REPLACE INTO users VALUES (1)" = some "REPLACE" ∧
    ("REPLACE" : String) ∉ ["SELECT", "INSERT", "UPDATE", "DELETE"] ∧
    (validate_sql demoState "REPLACE INTO users VALUES (1)").1.valid = true ∧
    (validate_sql demoState "REPLACE INTO users VALUES (1)").1.error = none :=
  ⟨rfl, by decide, rfl, rfl⟩

/-- C4 (amended): for parseable input, `validate` returns the
unrecognized-statement-type error exactly when the first meaningful token is
not typed `Keyword.DML` by the tokenizer — whose DML vocabulary is
SELECT/INSERT/DELETE/UPDATE/UPSERT/REPLACE/MERGE, not just the four kinds
the suggestion names; `DROP TABLE users` is still rejected this way. -/
theorem c4_amended_unrecognized_iff (st : ToolState) (q : String)
    (hq : sqlparse_parse q ≠ []) :
    (validate_sql st q).1.error = some "无法识别SQL语句类型" ↔
      statement_kind_of q = none := by
  have hS : ∀ m : String, "SQL验证失败: " ++ m ≠ "无法识别SQL语句类型" :=
    fun m => append_ne_of_head_ne _ m _ 'S' rfl (by decide)
  have hT : ∀ m : String, "表名不存在: " ++ m ≠ "无法识别SQL语句类型" :=
    fun m => append_ne_of_head_ne _ m _ '表' rfl (by decide)
  have hE : ∀ m : String, "SQL语法错误: " ++ m ≠ "无法识别SQL语句类型" :=
    fun m => append_ne_of_head_ne _ m _ 'S' rfl (by decide)
  rcases hp : sqlparse_parse q with _ | ⟨stmt, rest⟩
  · exact absurd hp hq
  · cases hk : statement_kind_of q with
    | none => simp [validate_sql, hp, hk]
    | some k =>
      rcases hc : st.conn? with _ | eng
      · simp [validate_sql, hp, hk, get_existing_tables_err st hc, hS]
      · simp only [validate_sql, hp, hk, get_existing_tables_ok st eng hc,
          invalid_tables_of_eq_nil, ne_eq, not_true_eq_false, if_false, hc]
        by_cases hsel : k = "SELECT"
        · rw [if_pos hsel]
          cases he : eng.explain ("EXPLAIN QUERY PLAN " ++ q) with
          | error e => simp [he, hE]
          | ok plan => simp [he]
        · rw [if_neg hsel]
          simp

/-- Witness for C4 at `DROP TABLE users` (DDL, hence no statement kind). -/
theorem c4_amended_unrecognized_iff_witness :
    sqlparse_parse "DROP TABLE users" ≠ [] ∧
    (validate_sql demoState "DROP TABLE users").1.error =
      some "无法识别SQL语句类型" :=
  ⟨by decide,
   (c4_amended_unrecognized_iff demoState "DROP TABLE users" (by decide)).mpr rfl⟩

/-- C1 (counterexample): the spec's iff fails — `REPLACE INTO rooms ...`
validates with `valid=true` although its recorded statement kind `REPLACE`
is none of SELECT/INSERT/UPDATE/DELETE. -/
theorem c1_claim_counterexample :
    ¬ c1_claim demoState "REPLACE INTO rooms VALUES (1)" := by
  unfold c1_claim
  decide

/-- C1 (amended): with an open connection, `valid=true` iff the statement is
classified as some DML kind (sqlparse's DML set, which also contains
UPSERT/REPLACE/MERGE), every extracted referenced table is known (a vacuous
condition: the extraction always returns the empty set), and — for SELECT
only — the `EXPLAIN QUERY PLAN` probe succeeds. -/
theorem c1_amended_valid_iff (st : ToolState) (eng : Engine) (q : String)
    (hconn : st.conn? = some eng) :
    (validate_sql st q).1.valid = true ↔
      ∃ k, statement_kind_of q = some k ∧
        (∀ t ∈ _extract_table_names q, t ∈ known_tables st) ∧
        (k = "SELECT" →
          ∃ plan, eng.explain ("EXPLAIN QUERY PLAN " ++ q) = Except.ok plan) := by
  rcases hp : sqlparse_parse q with _ | ⟨stmt, rest⟩
  · have hk : statement_kind_of q = none := by rw [statement_kind_of, hp]
    simp [validate_sql, hp, hk]
  · cases hk : statement_kind_of q with
    | none => simp [validate_sql, hp, hk]
    | some k =>
      simp only [validate_sql, hp, hk, get_existing_tables_ok st eng hconn,
        invalid_tables_of_eq_nil, ne_eq, not_true_eq_false, if_false, hconn,
        extract_table_names_eq_nil]
      by_cases hsel : k = "SELECT"
      · rw [if_pos hsel]
        subst hsel
        cases he : eng.explain ("EXPLAIN QUERY PLAN " ++ q) with
        | error e => simp [he]
        | ok plan => simp [he]
      · rw [if_neg hsel]
        simp [hsel]

/-- Witness for C1 at `SELECT * FROM users` on the seeded database. -/
theorem c1_amended_valid_iff_witness :
    (validate_sql demoState "SELECT * FROM users").1.valid = true :=
  (c1_amended_valid_iff demoState demoEngine "SELECT * FROM users" rfl).mpr
    ⟨"SELECT", rfl, by simp [extract_table_names_eq_nil],
     fun _ => ⟨["SCAN TABLE"], rfl⟩⟩

/-- C8 (confirmed): for a SELECT that validates and executes, the result
envelope reports `row_count` equal to the number of returned rows, and —
given the database driver's row-shape contract — every returned row has as
many entries as there are column names. -/
theorem c8_select_result_shape (st : ToolState) (q : String) (eng : Engine)
    (cols : List String) (rows : List (List SqlVal)) (plan : List String)
    (hvalid : (validate_sql st q).1.valid = true)
    (hkind : (validate_sql st q).1.statement_type = some "SELECT")
    (hconn : (validate_sql st q).2.conn? = some eng)
    (hexp : eng.explain ("EXPLAIN QUERY PLAN " ++ q) = Except.ok plan)
    (hrun : eng.runSelect q = Except.ok (cols, rows))
    (hshape : ∀ r ∈ rows, r.length = cols.length) :
    ∃ env st2, execute_query st q = Except.ok (env, st2) ∧
      env.results = some rows ∧ env.columns = some cols ∧
      env.row_count = some rows.length ∧
      ∀ r ∈ rows, r.length = cols.length := by
  have hred : execute_query st q = Except.ok
      ({ valid := true, statement_type := some "SELECT", results := some rows,
         columns := some cols, row_count := some rows.length,
         query_plan := some plan },
       { conn? := some eng,
         cursorLog := (validate_sql st q).2.cursorLog
           ++ [CursorOp.explainProbe q] ++ [CursorOp.runQuery q] }) := by
    simp [execute_query, hvalid, hconn, hkind, hexp, hrun]
  exact ⟨_, _, hred, rfl, rfl, rfl, hshape⟩

/-- Witness for C8 at `SELECT * FROM users` on the seeded database. -/
theorem c8_select_result_shape_witness :
    ∃ env st2, execute_query demoState "SELECT * FROM users" =
        Except.ok (env, st2) ∧
      env.results = some [[SqlVal.intV 1, SqlVal.textV "zhangsan"],
                          [SqlVal.intV 2, SqlVal.textV "lisi"]] ∧
      env.columns = some ["user_id", "username"] ∧
      env.row_count = some 2 ∧
      ∀ r ∈ [[SqlVal.intV 1, SqlVal.textV "zhangsan"],
             [SqlVal.intV 2, SqlVal.textV "lisi"]],
        r.length = (["user_id", "username"] : List String).length :=
  c8_select_result_shape demoState "SELECT * FROM users" demoEngine
    ["user_id", "username"]
    [[SqlVal.intV 1, SqlVal.textV "zhangsan"],
     [SqlVal.intV 2, SqlVal.textV "lisi"]]
    ["SCAN TABLE"] rfl rfl rfl rfl rfl (by decide)

end SmartHomeDB
